import Mathlib

/-!
# Unrar.swift: the C interface header `Sources/Cunrar/include/unrar.h`

The header declares the result codes, the flag masks, the record layouts and
the 32/64-bit helpers of the UnRAR library interface.  This development embeds
those declarations and settles the properties the specification states about
them.

Conventions of the embedding:

* a C `unsigned int` / `uint32` value is a `Nat` below `2 ^ 32`, a `uint64`
  value a `Nat` below `2 ^ 64`; casts and wrapping operations are written with
  an explicit `% 2 ^ w`;
* a signed value (`int32`, `int64`) is an `Int`, the conversion from the
  unsigned representation being two's complement;
* preprocessor constants keep their names from the header.
-/

namespace Unrar

/-! ## Result codes (`unrar.h`, lines 8-23) -/

def ERAR_SUCCESS : Nat := 0
def ERAR_END_ARCHIVE : Nat := 10
def ERAR_NO_MEMORY : Nat := 11
def ERAR_BAD_DATA : Nat := 12
def ERAR_BAD_ARCHIVE : Nat := 13
def ERAR_UNKNOWN_FORMAT : Nat := 14
def ERAR_EOPEN : Nat := 15
def ERAR_ECREATE : Nat := 16
def ERAR_ECLOSE : Nat := 17
def ERAR_EREAD : Nat := 18
def ERAR_EWRITE : Nat := 19
def ERAR_SMALL_BUF : Nat := 20
def ERAR_UNKNOWN : Nat := 21
def ERAR_MISSING_PASSWORD : Nat := 22
def ERAR_EREFERENCE : Nat := 23
def ERAR_BAD_PASSWORD : Nat := 24

/-! ## Open modes and operations (`unrar.h`, lines 25-31) -/

def RAR_OM_LIST : Nat := 0
def RAR_OM_EXTRACT : Nat := 1
def RAR_OM_LIST_INCSPLIT : Nat := 2

def RAR_SKIP : Nat := 0
def RAR_TEST : Nat := 1
def RAR_EXTRACT : Nat := 2

/-! ## Entry-header flag masks (`unrar.h`, lines 50-54) -/

def RHDF_SPLITBEFORE : Nat := 0x01
def RHDF_SPLITAFTER : Nat := 0x02
def RHDF_ENCRYPTED : Nat := 0x04
def RHDF_SOLID : Nat := 0x10
def RHDF_DIRECTORY : Nat := 0x20

/-! ## Archive-level flag masks (`unrar.h`, lines 128-136) -/

def ROADF_VOLUME : Nat := 0x0001
def ROADF_COMMENT : Nat := 0x0002
def ROADF_LOCK : Nat := 0x0004
def ROADF_SOLID : Nat := 0x0008
def ROADF_NEWNUMBERING : Nat := 0x0010
def ROADF_SIGNED : Nat := 0x0020
def ROADF_RECOVERY : Nat := 0x0040
def ROADF_ENCHEADERS : Nat := 0x0080
def ROADF_FIRSTVOLUME : Nat := 0x0100

/-! ## Integer types and helpers (`unrar.h`, lines 194-220) -/

/-- The cast `(uint64)(x)`: reduction modulo `2 ^ 64`. -/
def uint64 (x : Nat) : Nat := x % 2 ^ 64

/-- The cast `int64(x)` of an unsigned value: two's complement reading of the
low 64 bits. -/
def int64 (x : Nat) : Int :=
  if x % 2 ^ 64 < 2 ^ 63 then ((x % 2 ^ 64 : Nat) : Int)
  else ((x % 2 ^ 64 : Nat) : Int) - 2 ^ 64

/-- The cast `(int32)(x)` of an unsigned value: two's complement reading of the
low 32 bits. -/
def int32 (x : Nat) : Int :=
  if x % 2 ^ 32 < 2 ^ 31 then ((x % 2 ^ 32 : Nat) : Int)
  else ((x % 2 ^ 32 : Nat) : Int) - 2 ^ 32

/-- The helper `INT32TO64(high,low)`, that is
`((((uint64)(high))<<32)+((uint64)low))`: both operands are cast to `uint64`,
the shift and the addition are those of `uint64` and wrap modulo `2 ^ 64`. -/
def INT32TO64 (high low : Nat) : Nat :=
  ((uint64 high <<< 32) % 2 ^ 64 + uint64 low) % 2 ^ 64

/-- The constant `MAX_INT64`, that is `int64(INT32TO64(0x7fffffff,0xffffffff))`. -/
def MAX_INT64 : Int := int64 (INT32TO64 0x7fffffff 0xffffffff)

/-- The constant `INT64NDF`, that is `INT32TO64(0x7fffffff,0x7fffffff)`. -/
def INT64NDF : Nat := INT32TO64 0x7fffffff 0x7fffffff

/-! ## The extended entry header (`unrar.h`, lines 77-112) -/

/-- The record `struct RARHeaderDataEx`.  Character buffers are lists of
character codes, pointers are addresses, every `unsigned int` member is a
`Nat`. -/
structure RARHeaderDataEx where
  ArcName : List Nat
  ArcNameW : List Nat
  FileName : List Nat
  FileNameW : List Nat
  Flags : Nat
  PackSize : Nat
  PackSizeHigh : Nat
  UnpSize : Nat
  UnpSizeHigh : Nat
  HostOS : Nat
  FileCRC : Nat
  FileTime : Nat
  UnpVer : Nat
  Method : Nat
  FileAttr : Nat
  CmtBuf : Nat
  CmtBufSize : Nat
  CmtSize : Nat
  CmtState : Nat
  DictSize : Nat
  HashType : Nat
  Hash : List Nat
  RedirType : Nat
  RedirName : Nat
  RedirNameSize : Nat
  DirTarget : Nat
  MtimeLow : Nat
  MtimeHigh : Nat
  CtimeLow : Nat
  CtimeHigh : Nat
  AtimeLow : Nat
  AtimeHigh : Nat
  Reserved : List Nat
deriving DecidableEq

/-- A record that the C type can hold: the buffers have their declared
lengths and every `unsigned int` member is a 32-bit value. -/
def RARHeaderDataEx.WF (h : RARHeaderDataEx) : Prop :=
  h.ArcName.length = 1024 ∧ h.ArcNameW.length = 1024 ∧
  h.FileName.length = 1024 ∧ h.FileNameW.length = 1024 ∧
  h.Hash.length = 32 ∧ h.Reserved.length = 988 ∧
  (∀ x ∈ h.Reserved, x < 2 ^ 32) ∧
  h.Flags < 2 ^ 32 ∧
  h.PackSize < 2 ^ 32 ∧ h.PackSizeHigh < 2 ^ 32 ∧
  h.UnpSize < 2 ^ 32 ∧ h.UnpSizeHigh < 2 ^ 32 ∧
  h.HostOS < 2 ^ 32 ∧ h.FileCRC < 2 ^ 32 ∧ h.FileTime < 2 ^ 32 ∧
  h.UnpVer < 2 ^ 32 ∧ h.Method < 2 ^ 32 ∧ h.FileAttr < 2 ^ 32 ∧
  h.CmtBufSize < 2 ^ 32 ∧ h.CmtSize < 2 ^ 32 ∧ h.CmtState < 2 ^ 32 ∧
  h.DictSize < 2 ^ 32 ∧ h.HashType < 2 ^ 32 ∧
  h.RedirType < 2 ^ 32 ∧ h.RedirNameSize < 2 ^ 32 ∧ h.DirTarget < 2 ^ 32 ∧
  h.MtimeLow < 2 ^ 32 ∧ h.MtimeHigh < 2 ^ 32 ∧
  h.CtimeLow < 2 ^ 32 ∧ h.CtimeHigh < 2 ^ 32 ∧
  h.AtimeLow < 2 ^ 32 ∧ h.AtimeHigh < 2 ^ 32

/-- A concrete header: a 1000-byte file packed to 400 bytes, all buffers
zeroed. -/
def sampleHeader : RARHeaderDataEx where
  ArcName := List.replicate 1024 0
  ArcNameW := List.replicate 1024 0
  FileName := List.replicate 1024 0
  FileNameW := List.replicate 1024 0
  Flags := 0
  PackSize := 400
  PackSizeHigh := 0
  UnpSize := 1000
  UnpSizeHigh := 0
  HostOS := 3
  FileCRC := 0x1c291ca3
  FileTime := 0
  UnpVer := 50
  Method := 0x33
  FileAttr := 0x20
  CmtBuf := 0
  CmtBufSize := 0
  CmtSize := 0
  CmtState := 0
  DictSize := 128
  HashType := 1
  Hash := List.replicate 32 0
  RedirType := 0
  RedirName := 0
  RedirNameSize := 0
  DirTarget := 0
  MtimeLow := 0x5a3e8000
  MtimeHigh := 0x01d9f2b3
  CtimeLow := 0
  CtimeHigh := 0
  AtimeLow := 0
  AtimeHigh := 0
  Reserved := List.replicate 988 0

/-- A second concrete header, larger than 4 GiB: the high halves are used. -/
def sampleHeaderBig : RARHeaderDataEx :=
  { sampleHeader with
    PackSize := 0x80000000, PackSizeHigh := 1,
    UnpSize := 7, UnpSizeHigh := 2,
    MtimeLow := 5, MtimeHigh := 0x01d9f2b4 }

/-! ## Flag sets -/

/-- The five entry-header flags, one constructor for each `RHDF_*` mask. -/
inductive RHDF
  | SPLITBEFORE | SPLITAFTER | ENCRYPTED | SOLID | DIRECTORY
deriving DecidableEq, Fintype

/-- The mask of an entry-header flag. -/
def RHDF.mask : RHDF → Nat
  | .SPLITBEFORE => RHDF_SPLITBEFORE
  | .SPLITAFTER => RHDF_SPLITAFTER
  | .ENCRYPTED => RHDF_ENCRYPTED
  | .SOLID => RHDF_SOLID
  | .DIRECTORY => RHDF_DIRECTORY

/-- The position of the bit that the mask of an entry-header flag sets. -/
def RHDF.bit : RHDF → Nat
  | .SPLITBEFORE => 0
  | .SPLITAFTER => 1
  | .ENCRYPTED => 2
  | .SOLID => 4
  | .DIRECTORY => 5

/-- The nine archive-level flags, one constructor for each `ROADF_*` mask. -/
inductive ROADF
  | VOLUME | COMMENT | LOCK | SOLID | NEWNUMBERING | SIGNED | RECOVERY
  | ENCHEADERS | FIRSTVOLUME
deriving DecidableEq, Fintype

/-- The mask of an archive-level flag. -/
def ROADF.mask : ROADF → Nat
  | .VOLUME => ROADF_VOLUME
  | .COMMENT => ROADF_COMMENT
  | .LOCK => ROADF_LOCK
  | .SOLID => ROADF_SOLID
  | .NEWNUMBERING => ROADF_NEWNUMBERING
  | .SIGNED => ROADF_SIGNED
  | .RECOVERY => ROADF_RECOVERY
  | .ENCHEADERS => ROADF_ENCHEADERS
  | .FIRSTVOLUME => ROADF_FIRSTVOLUME

/-- The position of the bit that the mask of an archive-level flag sets. -/
def ROADF.bit : ROADF → Nat
  | .VOLUME => 0
  | .COMMENT => 1
  | .LOCK => 2
  | .SOLID => 3
  | .NEWNUMBERING => 4
  | .SIGNED => 5
  | .RECOVERY => 6
  | .ENCHEADERS => 7
  | .FIRSTVOLUME => 8

/-- The `Flags` word of a set of flags: the bitwise OR of the masks of its
members (`0` for the empty set). -/
def flagsWord {α : Type} (mask : α → Nat) (S : Finset α) : Nat :=
  S.fold (fun a b => a ||| b) 0 mask

/-! ## Error taxonomy -/

/-- The sixteen kinds of the error taxonomy, in the order of the `ERAR_*`
constants. -/
inductive ErrorKind
  | Success | EndOfArchive | OutOfMemory | BadData | BadArchive | UnknownFormat
  | OpenFailed | CreateFailed | CloseFailed | ReadFailed | WriteFailed
  | SmallBuffer | Unknown | MissingPassword | ReferenceError | BadPassword
deriving DecidableEq, Fintype

/-- The result code of a kind. -/
def ErrorKind.code : ErrorKind → Nat
  | .Success => ERAR_SUCCESS
  | .EndOfArchive => ERAR_END_ARCHIVE
  | .OutOfMemory => ERAR_NO_MEMORY
  | .BadData => ERAR_BAD_DATA
  | .BadArchive => ERAR_BAD_ARCHIVE
  | .UnknownFormat => ERAR_UNKNOWN_FORMAT
  | .OpenFailed => ERAR_EOPEN
  | .CreateFailed => ERAR_ECREATE
  | .CloseFailed => ERAR_ECLOSE
  | .ReadFailed => ERAR_EREAD
  | .WriteFailed => ERAR_EWRITE
  | .SmallBuffer => ERAR_SMALL_BUF
  | .Unknown => ERAR_UNKNOWN
  | .MissingPassword => ERAR_MISSING_PASSWORD
  | .ReferenceError => ERAR_EREFERENCE
  | .BadPassword => ERAR_BAD_PASSWORD

/-- The sixteen result codes in the order of the header. -/
def erarCodes : List Nat :=
  [ERAR_SUCCESS, ERAR_END_ARCHIVE, ERAR_NO_MEMORY, ERAR_BAD_DATA, ERAR_BAD_ARCHIVE,
   ERAR_UNKNOWN_FORMAT, ERAR_EOPEN, ERAR_ECREATE, ERAR_ECLOSE, ERAR_EREAD, ERAR_EWRITE,
   ERAR_SMALL_BUF, ERAR_UNKNOWN, ERAR_MISSING_PASSWORD, ERAR_EREFERENCE,
   ERAR_BAD_PASSWORD]

/-- The sixteen kinds in the order of the taxonomy. -/
def errorKinds : List ErrorKind :=
  [.Success, .EndOfArchive, .OutOfMemory, .BadData, .BadArchive, .UnknownFormat,
   .OpenFailed, .CreateFailed, .CloseFailed, .ReadFailed, .WriteFailed, .SmallBuffer,
   .Unknown, .MissingPassword, .ReferenceError, .BadPassword]

/-- Decoding of a result code: the first kind of the taxonomy that has this
code, if there is one. -/
def ErrorKind.ofCode (c : Nat) : Option ErrorKind :=
  errorKinds.find? (fun k => k.code == c)

/-! ## Archive session -/

/-- Modelled from the spec: the states of the Archive Session of section 4.3,
`Closed -> Open -> (HeaderRead -> Processed)* -> Open -> Closed`.  The library
behind the prototypes `RAROpenArchive`, `RARReadHeader`, `RARReadHeaderEx`,
`RARProcessFile` and `RARCloseArchive` is not among the sources; only the
prototypes are. -/
inductive SessionState
  | Closed | Open | HeaderRead
deriving DecidableEq

/-- Modelled from the spec: the OperationMode of section 3, "skip (advance
without reading payload), test (decompress and verify only), extract
(decompress to destination)"; the code that interprets the `Operation`
argument of `RARProcessFile` is not among the sources. -/
inductive OperationMode
  | skip | test | extract
deriving DecidableEq

/-- The value of the `Operation` argument for an operation mode. -/
def OperationMode.code : OperationMode → Nat
  | .skip => RAR_SKIP
  | .test => RAR_TEST
  | .extract => RAR_EXTRACT

/-- Modelled from the spec: the parts of the Extraction Engine that the spec
leaves open (section 9: "a pluggable, versioned decompression strategy
selected by the method code"): the decompression for a method code, the
decryption with a password, and the comparison of "the computed checksum/hash
against the header's declared value" (section 4.4).  None of them is among the
sources. -/
structure Engine where
  unpack : Nat → List Nat → List Nat
  decrypt : List Nat → List Nat → List Nat
  verify : RARHeaderDataEx → List Nat → Bool

/-- Modelled from the spec: one entry as the container stores it (glossary:
"Header: the metadata block preceding an entry's payload"): the record the
Header Decoder produces for it, the size in bytes of its header block, and
the packed payload that follows the header.  The container format is not
among the sources. -/
structure StoredEntry where
  header : RARHeaderDataEx
  headerSize : Nat
  payload : List Nat

/-- The bytes one stored entry occupies in the stream. -/
def StoredEntry.size (e : StoredEntry) : Nat := e.headerSize + e.payload.length

/-- Modelled from the spec: an archive held in one volume (glossary: "a
container file holding zero or more entries (files/directories) plus
metadata"): the archive-level flags (`ROADF_*`), the password its encrypted
parts were encrypted with, and the stored entries in stream order.  The
container format is not among the sources. -/
structure Archive where
  flags : Nat
  key : List Nat
  entries : List StoredEntry

/-- The length in bytes of the stream of a list of stored entries. -/
def streamSize : List StoredEntry → Nat
  | [] => 0
  | e :: es => e.size + streamSize es

/-- Modelled from the spec: the Header Decoder of section 4.2 on a "stream
positioned at a header boundary": the stored entry whose header block starts
at byte `offset`, `none` when no header block starts there.  The decoder is
not among the sources. -/
def headerAt : List StoredEntry → Nat → Option StoredEntry
  | [], _ => none
  | e :: es, offset =>
    if offset = 0 then some e
    else if offset < e.size then none
    else headerAt es (offset - e.size)

/-- The test `(word & mask) != 0` of a flag in a `Flags` word. -/
def flagSet (word mask : Nat) : Bool := (word &&& mask) != 0

/-- Modelled from the spec: the state behind an archive handle (section 3,
ArchiveHandle: "owns the Volume Reader, current stream offset, open mode,
registered callbacks, and password state"): the state of the session, the
archive, the stream offset in bytes, the stored entry whose header was read
last, the password set on the handle, the registered password-request
callback (`none`: not registered, `some none`: it declines, `some (some p)`:
it supplies `p`) and the registered volume-change callback (`none`: not
registered, `some false`: it cancels, `some true`: it supplies the next
volume).  The structure behind `HANDLE` is not among the sources. -/
structure ArchiveSession where
  state : SessionState
  archive : Archive
  offset : Nat
  current : Option StoredEntry
  password : Option (List Nat)
  passwordCallback : Option (Option (List Nat))
  volumeCallback : Option Bool

/-- Modelled from the spec: the password the Password/Crypto Gate of section
4.6 works with: the one "supplied on the handle", otherwise the one the
"registered password-request callback" supplies; `none` "if none is registered
or the callback declines".  The gate is not among the sources. -/
def obtainPassword (s : ArchiveSession) : Option (List Nat) :=
  match s.password with
  | some p => some p
  | none =>
    match s.passwordCallback with
    | some (some p) => some p
    | _ => none

/-- Modelled from the spec: the result of the Password/Crypto Gate of section
4.6 where encryption is indicated: `MissingPassword` when no password can be
obtained, `BadPassword` for a wrong one ("each decode attempt with a wrong
password must fail deterministically with `BadPassword`"), success for the
right one.  The gate is not among the sources. -/
def passwordGate (s : ArchiveSession) : Nat :=
  match obtainPassword s with
  | none => ERAR_MISSING_PASSWORD
  | some p => if p = s.archive.key then ERAR_SUCCESS else ERAR_BAD_PASSWORD

/-- Modelled from the spec: `openArchive` of section 4.3 on an archive the
Volume Reader can open, "transitions `Closed -> Open`", with the callbacks of
the open request registered and no password set; the bodies of
`RAROpenArchive` and `RAROpenArchiveEx` are not among the sources. -/
def openArchive (a : Archive) (passwordCallback : Option (Option (List Nat)))
    (volumeCallback : Option Bool) : ArchiveSession :=
  { state := .Open, archive := a, offset := 0, current := none, password := none,
    passwordCallback := passwordCallback, volumeCallback := volumeCallback }

/-- Modelled from the spec: `readHeader` of section 4.3, "transitions
`Open -> HeaderRead`, producing the next `EntryHeader`, or fails with
`EndArchive` (not a true error — signals iteration completion) or
`MissingPassword`/`BadPassword` if header decryption requires credentials the
Password/Crypto Gate cannot satisfy"; a stream position at which no header
block starts is `BadData` (section 4.2, entry-level structure malformed).
Reading a header advances the stream past the header block (section 4.2).
The bodies of `RARReadHeader` and `RARReadHeaderEx` are not among the sources.
The result is the code, the entry produced (the offset of its header block and
its header record) and the session afterwards.  In a state other than `Open`
the call is a contract violation, for which the spec fixes no behaviour:
`none`. -/
def readHeader (s : ArchiveSession) :
    Option (Nat × Option (Nat × RARHeaderDataEx) × ArchiveSession) :=
  match s.state with
  | .Open =>
    if flagSet s.archive.flags ROADF_ENCHEADERS && passwordGate s != ERAR_SUCCESS then
      some (passwordGate s, none, s)
    else if s.offset = streamSize s.archive.entries then
      some (ERAR_END_ARCHIVE, none, s)
    else
      match headerAt s.archive.entries s.offset with
      | some e =>
        some (ERAR_SUCCESS, some (s.offset, e.header),
          { s with state := .HeaderRead, offset := s.offset + e.headerSize, current := some e })
      | none => some (ERAR_BAD_DATA, none, s)
  | _ => none

/-- Modelled from the spec: the unpacked bytes of a stored entry for a
password: decryption when the header indicates encryption, then the
decompression method of `Method` (section 4.4).  The Extraction Engine is not
among the sources. -/
def unpackEntry (eng : Engine) (password : List Nat) (e : StoredEntry) : List Nat :=
  eng.unpack e.header.Method
    (if flagSet e.header.Flags RHDF_ENCRYPTED then eng.decrypt password e.payload
     else e.payload)

/-- Modelled from the spec: `processFile` of section 4.3, "transitions
`HeaderRead -> Open`, consuming the current entry via the Extraction Engine",
with the Extraction Engine of section 4.4, the Volume-Continuation Resolver of
section 4.5 and the Password/Crypto Gate of section 4.6:

* a directory-flagged entry bypasses payload processing;
* an entry whose header indicates encryption fails with the code of the
  password gate when the gate is not satisfied;
* `skip` "seeks past the packed payload using the header's packed size
  without decompressing";
* `test` and `extract` unpack the payload; when the entry is marked
  split-after and the data ends before the declared unpacked size, the
  volume-change callback is asked, and a cancel (or no callback) fails with
  `EOpen`; what a supplied next volume holds is outside this one-volume
  archive, so that case has no result here (`none`); otherwise the checksum is
  compared and a mismatch fails with `BadData`; `extract` also writes the
  bytes.

The stream always moves past the packed payload by the header's packed size,
assembled from its two 32-bit halves.  The result is the code, the bytes
written to the destination (if any) and the session afterwards.  The body of
`RARProcessFile` is not among the sources.  In a state other than `HeaderRead`
the call is a contract violation: `none`. -/
def processFile (eng : Engine) (operation : OperationMode) (s : ArchiveSession) :
    Option (Nat × Option (List Nat) × ArchiveSession) :=
  match s.state, s.current with
  | .HeaderRead, some e =>
    let next : ArchiveSession :=
      { s with state := .Open, current := none,
               offset := s.offset + INT32TO64 e.header.PackSizeHigh e.header.PackSize }
    if flagSet e.header.Flags RHDF_DIRECTORY then some (ERAR_SUCCESS, none, next)
    else if flagSet e.header.Flags RHDF_ENCRYPTED && passwordGate s != ERAR_SUCCESS then
      some (passwordGate s, none, next)
    else if operation = .skip then some (ERAR_SUCCESS, none, next)
    else
      let data := unpackEntry eng ((obtainPassword s).getD []) e
      if flagSet e.header.Flags RHDF_SPLITAFTER &&
          decide (data.length < INT32TO64 e.header.UnpSizeHigh e.header.UnpSize) then
        match s.volumeCallback with
        | some true => none
        | _ => some (ERAR_EOPEN, none, next)
      else if eng.verify e.header data then
        some (ERAR_SUCCESS, if operation = .extract then some data else none, next)
      else some (ERAR_BAD_DATA, none, next)
  | _, _ => none

/-- Modelled from the spec: the enumeration of section 8, "repeated header
reads", each successful read followed by `processFile` with the operation the
caller chooses for the entry.  The caller checks "the result of every call"
(section 7): the enumeration stops at the first call that does not succeed and
returns the entries whose headers were read, each with the offset of its
header block, and the code of that call; `none` when the fuel runs out or a
call has no result. -/
def enumerate (eng : Engine) (operation : Nat × RARHeaderDataEx → OperationMode) :
    Nat → ArchiveSession → Option (List (Nat × RARHeaderDataEx) × Nat)
  | 0, _ => none
  | fuel + 1, s =>
    match readHeader s with
    | none => none
    | some (code, produced, s1) =>
      if code = ERAR_SUCCESS then
        match produced with
        | none => none
        | some e =>
          match processFile eng (operation e) s1 with
          | none => none
          | some (pcode, _, s2) =>
            if pcode = ERAR_SUCCESS then
              (enumerate eng operation fuel s2).map (fun r => (e :: r.1, r.2))
            else some ([e], pcode)
      else some ([], code)

/-- Modelled from the spec: a stored entry of a valid one-volume archive: the
header is a record the C type can hold, the header block is not empty, the
packed size the header declares (`PackSizeHigh`, `PackSize`) is the size of
the stored payload, "a directory-flagged entry carries no payload", no part of
the entry lies in another volume, and for a file the unpacked bytes have the
declared unpacked size and pass the integrity check (section 8). -/
def StoredEntry.Valid (eng : Engine) (key : List Nat) (e : StoredEntry) : Prop :=
  e.header.WF ∧ 0 < e.headerSize ∧
  e.payload.length = INT32TO64 e.header.PackSizeHigh e.header.PackSize ∧
  (flagSet e.header.Flags RHDF_DIRECTORY = true → e.payload = []) ∧
  flagSet e.header.Flags RHDF_SPLITBEFORE = false ∧
  flagSet e.header.Flags RHDF_SPLITAFTER = false ∧
  (flagSet e.header.Flags RHDF_DIRECTORY = false →
    (unpackEntry eng key e).length = INT32TO64 e.header.UnpSizeHigh e.header.UnpSize ∧
    eng.verify e.header (unpackEntry eng key e) = true)

/-- Modelled from the spec: a valid one-volume archive: the flags word is a
32-bit value and every stored entry is valid. -/
def Archive.Valid (eng : Engine) (a : Archive) : Prop :=
  a.flags < 2 ^ 32 ∧ ∀ e ∈ a.entries, e.Valid eng a.key

/-- An engine for stored (uncompressed, unscrambled) data whose integrity
check compares the sum of the bytes with `FileCRC`. -/
def storeEngine : Engine where
  unpack := fun _ packed => packed
  decrypt := fun _ packed => packed
  verify := fun hd data => data.sum % 2 ^ 32 == hd.FileCRC

/-- A stored three-byte file. -/
def fileEntry : StoredEntry where
  header := { sampleHeader with Flags := 0, PackSize := 3, UnpSize := 3, FileCRC := 219,
                                Method := 0x30 }
  headerSize := 40
  payload := [104, 105, 10]

/-- A directory. -/
def dirEntry : StoredEntry where
  header := { sampleHeader with Flags := RHDF_DIRECTORY, PackSize := 0, UnpSize := 0,
                                FileCRC := 0, Method := 0x30, FileAttr := 0x10 }
  headerSize := 32
  payload := []

/-- An archive of a directory and a file, nothing encrypted. -/
def plainArchive : Archive where
  flags := 0
  key := []
  entries := [dirEntry, fileEntry]

/-- A container that is not a valid archive: the first header declares a
packed size of 2 bytes while 3 bytes of payload are stored, so the stream
position after the first entry is not a header boundary. -/
def brokenArchive : Archive where
  flags := 0
  key := []
  entries :=
    [{ fileEntry with header := { fileEntry.header with PackSize := 2 } }, fileEntry]

theorem sampleHeader_wf : sampleHeader.WF := by
  simp only [RARHeaderDataEx.WF, sampleHeader, List.length_replicate, List.mem_replicate]
  refine ⟨trivial, trivial, trivial, trivial, trivial, trivial, ?_, ?_⟩
  · rintro x ⟨-, rfl⟩
    decide
  · decide

theorem sampleHeaderBig_wf : sampleHeaderBig.WF := by
  simp only [RARHeaderDataEx.WF, sampleHeaderBig, sampleHeader, List.length_replicate,
    List.mem_replicate]
  refine ⟨trivial, trivial, trivial, trivial, trivial, trivial, ?_, ?_⟩
  · rintro x ⟨-, rfl⟩
    decide
  · decide

theorem INT32TO64_eq (high low : Nat) (hh : high < 2 ^ 32) (hl : low < 2 ^ 32) :
    INT32TO64 high low = high * 2 ^ 32 + low := by
  unfold INT32TO64 uint64
  rw [Nat.shiftLeft_eq]
  have h1 : high % 2 ^ 64 = high := Nat.mod_eq_of_lt (by omega)
  have h2 : low % 2 ^ 64 = low := Nat.mod_eq_of_lt (by omega)
  rw [h1, h2, Nat.mod_eq_of_lt (by omega : high * 2 ^ 32 < 2 ^ 64),
    Nat.mod_eq_of_lt (by omega : high * 2 ^ 32 + low < 2 ^ 64)]

theorem INT32TO64_lt (high low : Nat) (hh : high < 2 ^ 32) (hl : low < 2 ^ 32) :
    INT32TO64 high low < 2 ^ 64 := by
  rw [INT32TO64_eq high low hh hl]
  omega

theorem INT32TO64_split (v : Nat) (hv : v < 2 ^ 64) :
    INT32TO64 (v >>> 32) (v &&& 0xffffffff) = v := by
  have hmask : v &&& 0xffffffff = v % 2 ^ 32 := Nat.and_pow_two_sub_one_eq_mod v 32
  have hshift : v >>> 32 = v / 2 ^ 32 := Nat.shiftRight_eq_div_pow v 32
  rw [hmask, hshift, INT32TO64_eq _ _ (by omega) (by omega)]
  omega

theorem INT32TO64_high (high low : Nat) (hh : high < 2 ^ 32) (hl : low < 2 ^ 32) :
    INT32TO64 high low >>> 32 = high := by
  rw [INT32TO64_eq high low hh hl, Nat.shiftRight_eq_div_pow]
  omega

theorem INT32TO64_low (high low : Nat) (hh : high < 2 ^ 32) (hl : low < 2 ^ 32) :
    INT32TO64 high low &&& 0xffffffff = low := by
  have hmask : INT32TO64 high low &&& 0xffffffff = INT32TO64 high low % 2 ^ 32 :=
    Nat.and_pow_two_sub_one_eq_mod _ 32
  rw [hmask, INT32TO64_eq high low hh hl]
  omega

theorem INT32TO64_lt_iff (h1 l1 h2 l2 : Nat) (hh1 : h1 < 2 ^ 32) (hl1 : l1 < 2 ^ 32)
    (hh2 : h2 < 2 ^ 32) (hl2 : l2 < 2 ^ 32) :
    INT32TO64 h1 l1 < INT32TO64 h2 l2 ↔ h1 < h2 ∨ (h1 = h2 ∧ l1 < l2) := by
  rw [INT32TO64_eq h1 l1 hh1 hl1, INT32TO64_eq h2 l2 hh2 hl2]
  omega

theorem int64_le_max (x : Nat) : int64 x ≤ MAX_INT64 := by
  have hmax : MAX_INT64 = 2 ^ 63 - 1 := by decide
  rw [hmax]
  unfold int64
  split <;> omega

theorem RARHeaderDataEx.WF.halves {h : RARHeaderDataEx} (hwf : h.WF) :
    (h.PackSize < 2 ^ 32 ∧ h.PackSizeHigh < 2 ^ 32) ∧
    (h.UnpSize < 2 ^ 32 ∧ h.UnpSizeHigh < 2 ^ 32) ∧
    (h.MtimeLow < 2 ^ 32 ∧ h.MtimeHigh < 2 ^ 32) ∧
    (h.CtimeLow < 2 ^ 32 ∧ h.CtimeHigh < 2 ^ 32) ∧
    (h.AtimeLow < 2 ^ 32 ∧ h.AtimeHigh < 2 ^ 32) := by
  obtain ⟨-, -, -, -, -, -, -, -, hp, hph, hu, huh, -, -, -, -, -, -, -, -, -, -, -, -, -, -,
    hml, hmh, hcl, hch, hal, hah⟩ := hwf
  exact ⟨⟨hp, hph⟩, ⟨hu, huh⟩, ⟨hml, hmh⟩, ⟨hcl, hch⟩, ⟨hal, hah⟩⟩

/-! ## Facts on flag words -/

theorem flagsWord_empty {α : Type} (mask : α → Nat) : flagsWord mask ∅ = 0 := by
  simp [flagsWord]

theorem flagsWord_insert {α : Type} [DecidableEq α] (mask : α → Nat) (a : α)
    (S : Finset α) (ha : a ∉ S) :
    flagsWord mask (insert a S) = mask a ||| flagsWord mask S := by
  simp [flagsWord, Finset.fold_insert ha]

theorem testBit_flagsWord {α : Type} [DecidableEq α] (mask : α → Nat) (S : Finset α)
    (i : Nat) :
    (flagsWord mask S).testBit i = true ↔ ∃ f ∈ S, (mask f).testBit i = true := by
  induction S using Finset.induction_on with
  | empty => simp [flagsWord_empty]
  | insert ha ih =>
    rw [flagsWord_insert mask _ _ ha, Nat.testBit_or, Bool.or_eq_true, ih]
    simp

theorem testBit_flagsWord_bit {α : Type} [DecidableEq α] (mask : α → Nat) (bit : α → Nat)
    (hm : ∀ f, mask f = 2 ^ bit f) (S : Finset α) (i : Nat) :
    (flagsWord mask S).testBit i = true ↔ ∃ f ∈ S, bit f = i := by
  rw [testBit_flagsWord]
  simp [hm, Nat.testBit_two_pow]

theorem flagsWord_and_mask {α : Type} [DecidableEq α] (mask : α → Nat) (bit : α → Nat)
    (hm : ∀ f, mask f = 2 ^ bit f) (hb : Function.Injective bit) (S : Finset α) (f : α) :
    flagsWord mask S &&& mask f ≠ 0 ↔ f ∈ S := by
  have hbit : (flagsWord mask S).testBit (bit f) = true ↔ f ∈ S := by
    rw [testBit_flagsWord_bit mask bit hm]
    constructor
    · rintro ⟨g, hg, hgf⟩
      exact hb hgf ▸ hg
    · intro hf
      exact ⟨f, hf, rfl⟩
  rw [← hbit, hm f, Nat.and_two_pow]
  cases (flagsWord mask S).testBit (bit f) <;> simp

theorem flagsWord_injective {α : Type} [DecidableEq α] (mask : α → Nat) (bit : α → Nat)
    (hm : ∀ f, mask f = 2 ^ bit f) (hb : Function.Injective bit) :
    Function.Injective (flagsWord mask) := by
  intro S T hST
  ext f
  rw [← flagsWord_and_mask mask bit hm hb S f, ← flagsWord_and_mask mask bit hm hb T f, hST]

theorem flagsWord_lt {α : Type} [DecidableEq α] (mask : α → Nat) (bit : α → Nat)
    (hm : ∀ f, mask f = 2 ^ bit f) (n : Nat) (hn : ∀ f, bit f < n) (S : Finset α) :
    flagsWord mask S < 2 ^ n := by
  apply Nat.lt_pow_two_of_testBit
  intro i hi
  rw [← Bool.not_eq_true, testBit_flagsWord_bit mask bit hm]
  rintro ⟨f, -, hf⟩
  have := hn f
  omega

theorem flagsWord_filter {α : Type} [DecidableEq α] [Fintype α] (mask : α → Nat)
    (bit : α → Nat) (hm : ∀ f, mask f = 2 ^ bit f) (n : Nat)
    (hs : ∀ i, i < n → ∃ f, bit f = i) (w : Nat) (hw : w < 2 ^ n) :
    flagsWord mask (Finset.univ.filter (fun f => w.testBit (bit f) = true)) = w := by
  apply Nat.eq_of_testBit_eq
  intro i
  rw [Bool.eq_iff_iff, testBit_flagsWord_bit mask bit hm]
  constructor
  · rintro ⟨f, hf, rfl⟩
    exact (Finset.mem_filter.mp hf).2
  · intro hi
    have hin : i < n := by
      by_contra hge
      have hpow : 2 ^ n ≤ 2 ^ i := Nat.pow_le_pow_right (by decide) (by omega)
      have := Nat.testBit_lt_two_pow (Nat.lt_of_lt_of_le hw hpow)
      rw [this] at hi
      exact Bool.false_ne_true hi
    obtain ⟨f, rfl⟩ := hs i hin
    exact ⟨f, Finset.mem_filter.mpr ⟨Finset.mem_univ f, hi⟩, rfl⟩

theorem RHDF_mask_eq (f : RHDF) : f.mask = 2 ^ f.bit := by
  cases f <;> rfl

theorem RHDF_bit_injective : Function.Injective RHDF.bit := by
  intro f g h
  cases f <;> cases g <;> first | rfl | exact absurd h (by decide)

theorem ROADF_mask_eq (f : ROADF) : f.mask = 2 ^ f.bit := by
  cases f <;> rfl

theorem ROADF_bit_injective : Function.Injective ROADF.bit := by
  intro f g h
  cases f <;> cases g <;> first | rfl | exact absurd h (by decide)

theorem ROADF_bit_lt (f : ROADF) : f.bit < 9 := by
  cases f <;> decide

theorem ROADF_bit_surjective (i : Nat) (hi : i < 9) : ∃ f : ROADF, f.bit = i := by
  have h : i = 0 ∨ i = 1 ∨ i = 2 ∨ i = 3 ∨ i = 4 ∨ i = 5 ∨ i = 6 ∨ i = 7 ∨ i = 8 := by
    omega
  rcases h with h | h | h | h | h | h | h | h | h <;> subst h
  · exact ⟨.VOLUME, rfl⟩
  · exact ⟨.COMMENT, rfl⟩
  · exact ⟨.LOCK, rfl⟩
  · exact ⟨.SOLID, rfl⟩
  · exact ⟨.NEWNUMBERING, rfl⟩
  · exact ⟨.SIGNED, rfl⟩
  · exact ⟨.RECOVERY, rfl⟩
  · exact ⟨.ENCHEADERS, rfl⟩
  · exact ⟨.FIRSTVOLUME, rfl⟩

/-! ## The 32/64-bit helper -/

/-- Claim C1: for 32-bit `high` and `low`, `INT32TO64(high, low)` is exactly
`high * 2 ^ 32 + low`; neither the shift nor the addition of the 64-bit
unsigned arithmetic wraps, and the result lies in `[0, 2 ^ 64)`.  In
particular, for a header the C type can hold, the pairs `PackSize` /
`PackSizeHigh` and `UnpSize` / `UnpSizeHigh` assemble to
`PackSizeHigh * 2 ^ 32 + PackSize` and `UnpSizeHigh * 2 ^ 32 + UnpSize`. -/
theorem INT32TO64_exact (high low : Nat) (hh : high < 2 ^ 32) (hl : low < 2 ^ 32)
    (hd : RARHeaderDataEx) (hwf : hd.WF) :
    INT32TO64 high low = high * 2 ^ 32 + low ∧
    uint64 high <<< 32 < 2 ^ 64 ∧
    uint64 high <<< 32 + uint64 low < 2 ^ 64 ∧
    INT32TO64 high low < 2 ^ 64 ∧
    INT32TO64 hd.PackSizeHigh hd.PackSize = hd.PackSizeHigh * 2 ^ 32 + hd.PackSize ∧
    INT32TO64 hd.PackSizeHigh hd.PackSize < 2 ^ 64 ∧
    INT32TO64 hd.UnpSizeHigh hd.UnpSize = hd.UnpSizeHigh * 2 ^ 32 + hd.UnpSize ∧
    INT32TO64 hd.UnpSizeHigh hd.UnpSize < 2 ^ 64 := by
  obtain ⟨⟨hp, hph⟩, ⟨hu, huh⟩, -⟩ := hwf.halves
  have h1 : uint64 high = high := Nat.mod_eq_of_lt (by omega)
  have h2 : uint64 low = low := Nat.mod_eq_of_lt (by omega)
  refine ⟨INT32TO64_eq high low hh hl, ?_, ?_, INT32TO64_lt high low hh hl,
    INT32TO64_eq _ _ hph hp, INT32TO64_lt _ _ hph hp,
    INT32TO64_eq _ _ huh hu, INT32TO64_lt _ _ huh hu⟩
  · rw [h1, Nat.shiftLeft_eq]
    omega
  · rw [h1, h2, Nat.shiftLeft_eq]
    omega

/-- Witness of claim C1 at `high = 0xffffffff`, `low = 0xffffffff` (the largest
pair) and at the header `sampleHeaderBig`. -/
theorem INT32TO64_exact_witness :
    (0xffffffff < 2 ^ 32 ∧ sampleHeaderBig.WF) ∧
    (INT32TO64 0xffffffff 0xffffffff = 0xffffffff * 2 ^ 32 + 0xffffffff ∧
    uint64 0xffffffff <<< 32 < 2 ^ 64 ∧
    uint64 0xffffffff <<< 32 + uint64 0xffffffff < 2 ^ 64 ∧
    INT32TO64 0xffffffff 0xffffffff < 2 ^ 64 ∧
    INT32TO64 sampleHeaderBig.PackSizeHigh sampleHeaderBig.PackSize =
      sampleHeaderBig.PackSizeHigh * 2 ^ 32 + sampleHeaderBig.PackSize ∧
    INT32TO64 sampleHeaderBig.PackSizeHigh sampleHeaderBig.PackSize < 2 ^ 64 ∧
    INT32TO64 sampleHeaderBig.UnpSizeHigh sampleHeaderBig.UnpSize =
      sampleHeaderBig.UnpSizeHigh * 2 ^ 32 + sampleHeaderBig.UnpSize ∧
    INT32TO64 sampleHeaderBig.UnpSizeHigh sampleHeaderBig.UnpSize < 2 ^ 64) :=
  ⟨⟨by decide, sampleHeaderBig_wf⟩,
    INT32TO64_exact 0xffffffff 0xffffffff (by decide) (by decide) sampleHeaderBig
      sampleHeaderBig_wf⟩

/-- Claim C2: splitting a 64-bit value into 32-bit halves and assembling it
with `INT32TO64` is a round trip in both directions: for a 64-bit `v`,
`INT32TO64(v >> 32, v & 0xffffffff) = v`; for 32-bit `high` and `low` the
assembled value has `high` as `>> 32` and `low` as `& 0xffffffff`; hence
`INT32TO64` is a bijection from the pairs of 32-bit values onto the 64-bit
values. -/
theorem INT32TO64_round_trip (v high low : Nat) (hv : v < 2 ^ 64) (hh : high < 2 ^ 32)
    (hl : low < 2 ^ 32) :
    (v >>> 32 < 2 ^ 32 ∧ v &&& 0xffffffff < 2 ^ 32 ∧
      INT32TO64 (v >>> 32) (v &&& 0xffffffff) = v) ∧
    (INT32TO64 high low >>> 32 = high ∧ INT32TO64 high low &&& 0xffffffff = low) ∧
    Set.BijOn (fun p : Nat × Nat => INT32TO64 p.1 p.2)
      {p | p.1 < 2 ^ 32 ∧ p.2 < 2 ^ 32} {w | w < 2 ^ 64} := by
  have hhalves : ∀ w, w < 2 ^ 64 → w >>> 32 < 2 ^ 32 ∧ w &&& 0xffffffff < 2 ^ 32 := by
    intro w hw
    have hmask : w &&& 0xffffffff = w % 2 ^ 32 := Nat.and_pow_two_sub_one_eq_mod w 32
    rw [hmask, Nat.shiftRight_eq_div_pow]
    omega
  refine ⟨⟨(hhalves v hv).1, (hhalves v hv).2, INT32TO64_split v hv⟩,
    ⟨INT32TO64_high high low hh hl, INT32TO64_low high low hh hl⟩, ?_, ?_, ?_⟩
  · rintro ⟨a, b⟩ ⟨ha, hb⟩
    exact INT32TO64_lt a b ha hb
  · rintro ⟨a, b⟩ ⟨ha, hb⟩ ⟨c, d⟩ ⟨hc, hd⟩ hab
    have hab2 : INT32TO64 a b = INT32TO64 c d := hab
    have e1 : a = c := by
      rw [← INT32TO64_high a b ha hb, ← INT32TO64_high c d hc hd, hab2]
    have e2 : b = d := by
      rw [← INT32TO64_low a b ha hb, ← INT32TO64_low c d hc hd, hab2]
    rw [e1, e2]
  · intro w hw
    exact ⟨(w >>> 32, w &&& 0xffffffff), hhalves w hw, INT32TO64_split w hw⟩

/-- Witness of claim C2 at `v = 0xfedcba9876543210` and at the pair
`high = 0x01d9f2b4`, `low = 0x80000000`. -/
theorem INT32TO64_round_trip_witness :
    (0xfedcba9876543210 < 2 ^ 64 ∧ 0x01d9f2b4 < 2 ^ 32 ∧ 0x80000000 < 2 ^ 32) ∧
    ((0xfedcba9876543210 >>> 32 < 2 ^ 32 ∧ 0xfedcba9876543210 &&& 0xffffffff < 2 ^ 32 ∧
      INT32TO64 (0xfedcba9876543210 >>> 32) (0xfedcba9876543210 &&& 0xffffffff) =
        0xfedcba9876543210) ∧
    (INT32TO64 0x01d9f2b4 0x80000000 >>> 32 = 0x01d9f2b4 ∧
      INT32TO64 0x01d9f2b4 0x80000000 &&& 0xffffffff = 0x80000000) ∧
    Set.BijOn (fun p : Nat × Nat => INT32TO64 p.1 p.2)
      {p | p.1 < 2 ^ 32 ∧ p.2 < 2 ^ 32} {w | w < 2 ^ 64}) :=
  ⟨⟨by decide, by decide, by decide⟩,
    INT32TO64_round_trip 0xfedcba9876543210 0x01d9f2b4 0x80000000 (by decide) (by decide)
      (by decide)⟩

/-- Claim C7: `MAX_INT64` is the maximum signed 64-bit value:
`INT32TO64(0x7fffffff, 0xffffffff)` is `2 ^ 63 - 1 = 0x7fffffffffffffff`, the
conversion of that unsigned value to `int64` leaves it unchanged, it is
non-negative, and no `int64` value is larger. -/
theorem MAX_INT64_is_max :
    INT32TO64 0x7fffffff 0xffffffff = 2 ^ 63 - 1 ∧
    INT32TO64 0x7fffffff 0xffffffff = 0x7fffffffffffffff ∧
    MAX_INT64 = ((INT32TO64 0x7fffffff 0xffffffff : Nat) : Int) ∧
    MAX_INT64 = 2 ^ 63 - 1 ∧
    0 ≤ MAX_INT64 ∧
    (∀ x : Nat, int64 x ≤ MAX_INT64) ∧
    (∀ x : Nat, -(2 : Int) ^ 63 ≤ int64 x) := by
  refine ⟨by decide, by decide, by decide, by decide, by decide, int64_le_max, ?_⟩
  intro x
  unfold int64
  split <;> omega

/-- Claim C8: the sentinel `INT64NDF = INT32TO64(0x7fffffff, 0x7fffffff)` is
`0x7fffffff7fffffff`; it is positive and at most `2 ^ 63 - 1`, so its readings
as `int64` and as `uint64` agree with the value itself; it is strictly smaller
than `MAX_INT64`; its low 32-bit half is `0x7fffffff`, which is non-negative
as a signed 32-bit integer. -/
theorem INT64NDF_fits :
    INT64NDF = 0x7fffffff7fffffff ∧
    0 < INT64NDF ∧ INT64NDF ≤ 2 ^ 63 - 1 ∧
    int64 INT64NDF = ((uint64 INT64NDF : Nat) : Int) ∧
    int64 INT64NDF = ((INT64NDF : Nat) : Int) ∧
    uint64 INT64NDF = INT64NDF ∧
    ((INT64NDF : Nat) : Int) < MAX_INT64 ∧
    INT64NDF &&& 0xffffffff = 0x7fffffff ∧
    INT64NDF >>> 32 = 0x7fffffff ∧
    int32 (INT64NDF &&& 0xffffffff) = 0x7fffffff ∧
    0 ≤ int32 (INT64NDF &&& 0xffffffff) := by
  refine ⟨by decide, by decide, by decide, by decide, by decide, by decide, by decide,
    by decide, by decide, by decide, by decide⟩

/-- Claim C9: `INT32TO64` preserves order lexicographically: for 32-bit halves,
`INT32TO64(high1, low1) < INT32TO64(high2, low2)` exactly when `high1 < high2`,
or `high1 = high2` and `low1 < low2`; so comparing the packed sizes, the
unpacked sizes or the modification, creation and access times of two headers
by their assembled 64-bit values agrees with comparing the high halves first
and the low halves second. -/
theorem INT32TO64_lex (high1 low1 high2 low2 : Nat) (hh1 : high1 < 2 ^ 32)
    (hl1 : low1 < 2 ^ 32) (hh2 : high2 < 2 ^ 32) (hl2 : low2 < 2 ^ 32)
    (a b : RARHeaderDataEx) (ha : a.WF) (hb : b.WF) :
    (INT32TO64 high1 low1 < INT32TO64 high2 low2 ↔
      high1 < high2 ∨ (high1 = high2 ∧ low1 < low2)) ∧
    (INT32TO64 a.PackSizeHigh a.PackSize < INT32TO64 b.PackSizeHigh b.PackSize ↔
      a.PackSizeHigh < b.PackSizeHigh ∨
        (a.PackSizeHigh = b.PackSizeHigh ∧ a.PackSize < b.PackSize)) ∧
    (INT32TO64 a.UnpSizeHigh a.UnpSize < INT32TO64 b.UnpSizeHigh b.UnpSize ↔
      a.UnpSizeHigh < b.UnpSizeHigh ∨
        (a.UnpSizeHigh = b.UnpSizeHigh ∧ a.UnpSize < b.UnpSize)) ∧
    (INT32TO64 a.MtimeHigh a.MtimeLow < INT32TO64 b.MtimeHigh b.MtimeLow ↔
      a.MtimeHigh < b.MtimeHigh ∨ (a.MtimeHigh = b.MtimeHigh ∧ a.MtimeLow < b.MtimeLow)) ∧
    (INT32TO64 a.CtimeHigh a.CtimeLow < INT32TO64 b.CtimeHigh b.CtimeLow ↔
      a.CtimeHigh < b.CtimeHigh ∨ (a.CtimeHigh = b.CtimeHigh ∧ a.CtimeLow < b.CtimeLow)) ∧
    (INT32TO64 a.AtimeHigh a.AtimeLow < INT32TO64 b.AtimeHigh b.AtimeLow ↔
      a.AtimeHigh < b.AtimeHigh ∨ (a.AtimeHigh = b.AtimeHigh ∧ a.AtimeLow < b.AtimeLow)) := by
  obtain ⟨⟨ap, aph⟩, ⟨au, auh⟩, ⟨aml, amh⟩, ⟨acl, ach⟩, ⟨aal, aah⟩⟩ := ha.halves
  obtain ⟨⟨bp, bph⟩, ⟨bu, buh⟩, ⟨bml, bmh⟩, ⟨bcl, bch⟩, ⟨bal, bah⟩⟩ := hb.halves
  exact ⟨INT32TO64_lt_iff _ _ _ _ hh1 hl1 hh2 hl2, INT32TO64_lt_iff _ _ _ _ aph ap bph bp,
    INT32TO64_lt_iff _ _ _ _ auh au buh bu, INT32TO64_lt_iff _ _ _ _ amh aml bmh bml,
    INT32TO64_lt_iff _ _ _ _ ach acl bch bcl, INT32TO64_lt_iff _ _ _ _ aah aal bah bal⟩

/-- Witness of claim C9 at the pairs `(1, 0xffffffff)` and `(2, 0)` and at the
headers `sampleHeader` and `sampleHeaderBig`. -/
theorem INT32TO64_lex_witness :
    (1 < 2 ^ 32 ∧ 0xffffffff < 2 ^ 32 ∧ 2 < 2 ^ 32 ∧ 0 < 2 ^ 32 ∧
      sampleHeader.WF ∧ sampleHeaderBig.WF) ∧
    INT32TO64 1 0xffffffff < INT32TO64 2 0 ∧
    INT32TO64 sampleHeader.PackSizeHigh sampleHeader.PackSize <
      INT32TO64 sampleHeaderBig.PackSizeHigh sampleHeaderBig.PackSize ∧
    INT32TO64 sampleHeader.MtimeHigh sampleHeader.MtimeLow <
      INT32TO64 sampleHeaderBig.MtimeHigh sampleHeaderBig.MtimeLow :=
  ⟨⟨by decide, by decide, by decide, by decide, sampleHeader_wf, sampleHeaderBig_wf⟩,
    (INT32TO64_lex 1 0xffffffff 2 0 (by decide) (by decide) (by decide) (by decide)
      sampleHeader sampleHeaderBig sampleHeader_wf sampleHeaderBig_wf).1.mpr
      (Or.inl (by decide)),
    (INT32TO64_lex 1 0xffffffff 2 0 (by decide) (by decide) (by decide) (by decide)
      sampleHeader sampleHeaderBig sampleHeader_wf sampleHeaderBig_wf).2.1.mpr
      (Or.inl (by decide)),
    (INT32TO64_lex 1 0xffffffff 2 0 (by decide) (by decide) (by decide) (by decide)
      sampleHeader sampleHeaderBig sampleHeader_wf sampleHeaderBig_wf).2.2.2.1.mpr
      (Or.inl (by decide))⟩

/-! ## Result codes and the error taxonomy -/

/-- Claim C3: the sixteen `ERAR_*` constants, in the order `ERAR_SUCCESS` ..
`ERAR_BAD_PASSWORD`, are the codes of the sixteen kinds of the taxonomy and are
pairwise distinct, so the map from kinds to codes is injective and decoding a
code gives back its kind; `Success` has the code `0` and is the only kind with
that code, every other code lying in `10..24`. -/
theorem ERAR_codes_one_to_one (k : ErrorKind) (c : Nat) :
    erarCodes = errorKinds.map ErrorKind.code ∧
    erarCodes.length = 16 ∧
    (∀ j : ErrorKind, j ∈ errorKinds) ∧
    erarCodes.Pairwise (fun x y => x ≠ y) ∧
    Function.Injective ErrorKind.code ∧
    ErrorKind.ofCode k.code = some k ∧
    (ErrorKind.ofCode c = some k ↔ k.code = c) ∧
    ErrorKind.Success.code = 0 ∧
    (k.code = 0 ↔ k = ErrorKind.Success) ∧
    (k ≠ ErrorKind.Success → 10 ≤ k.code ∧ k.code ≤ 24) := by
  have hdec : ∀ j : ErrorKind, ErrorKind.ofCode j.code = some j := by
    intro j
    cases j <;> rfl
  refine ⟨rfl, rfl, ?_, by decide, ?_, hdec k, ?_, rfl, ?_, ?_⟩
  · intro j
    cases j <;> decide
  · intro i j hij
    have h := hdec i
    rw [hij, hdec j] at h
    exact (Option.some.inj h).symm
  · constructor
    · intro h
      have hf := List.find?_some h
      exact beq_iff_eq.mp hf
    · rintro rfl
      exact hdec k
  · cases k <;> decide
  · cases k <;> decide

/-- Witness of claim C3 at the kind `BadPassword` and its code `24`. -/
theorem ERAR_codes_one_to_one_witness :
    ErrorKind.BadPassword ≠ ErrorKind.Success ∧
    (10 ≤ ErrorKind.BadPassword.code ∧ ErrorKind.BadPassword.code ≤ 24) ∧
    ErrorKind.ofCode 24 = some ErrorKind.BadPassword :=
  ⟨by decide,
    (ERAR_codes_one_to_one ErrorKind.BadPassword 24).2.2.2.2.2.2.2.2.2 (by decide),
    (ERAR_codes_one_to_one ErrorKind.BadPassword 24).2.2.2.2.2.2.1.mpr (by decide)⟩

/-! ## Flag words -/

/-- Claim C4: the five entry-header flags form a bit-flag set: every mask is a
single bit, two different flags have disjoint masks, the word obtained by
OR-ing the masks of a set `S` of flags satisfies `(word & mask f) != 0` exactly
when `f` is in `S`, and two different sets give different words. -/
theorem RHDF_bit_flag_set (S T : Finset RHDF) (f g : RHDF) :
    (∃ k, f.mask = 2 ^ k) ∧
    (f ≠ g → f.mask &&& g.mask = 0) ∧
    (flagsWord RHDF.mask S &&& f.mask ≠ 0 ↔ f ∈ S) ∧
    (S ≠ T → flagsWord RHDF.mask S ≠ flagsWord RHDF.mask T) ∧
    flagsWord RHDF.mask S < 2 ^ 32 := by
  refine ⟨⟨f.bit, RHDF_mask_eq f⟩, ?_, flagsWord_and_mask _ _ RHDF_mask_eq RHDF_bit_injective S f,
    ?_, ?_⟩
  · intro hfg
    cases f <;> cases g <;> first | exact absurd rfl hfg | decide
  · intro hST hw
    exact hST (flagsWord_injective _ _ RHDF_mask_eq RHDF_bit_injective hw)
  · have h6 : flagsWord RHDF.mask S < 2 ^ 6 :=
      flagsWord_lt _ _ RHDF_mask_eq 6 (fun x => by cases x <;> decide) S
    omega

/-- Witness of claim C4 at the sets `{SPLITAFTER, SOLID}` and `{SOLID}` and the
flags `SOLID` and `DIRECTORY`. -/
theorem RHDF_bit_flag_set_witness :
    (RHDF.SOLID ≠ RHDF.DIRECTORY ∧
      ({RHDF.SPLITAFTER, RHDF.SOLID} : Finset RHDF) ≠ {RHDF.SOLID}) ∧
    RHDF.SOLID.mask &&& RHDF.DIRECTORY.mask = 0 ∧
    flagsWord RHDF.mask {RHDF.SPLITAFTER, RHDF.SOLID} &&& RHDF.SOLID.mask ≠ 0 ∧
    flagsWord RHDF.mask {RHDF.SPLITAFTER, RHDF.SOLID} ≠ flagsWord RHDF.mask {RHDF.SOLID} :=
  ⟨⟨by decide, by decide⟩,
    (RHDF_bit_flag_set {RHDF.SPLITAFTER, RHDF.SOLID} {RHDF.SOLID} RHDF.SOLID
      RHDF.DIRECTORY).2.1 (by decide),
    (RHDF_bit_flag_set {RHDF.SPLITAFTER, RHDF.SOLID} {RHDF.SOLID} RHDF.SOLID
      RHDF.DIRECTORY).2.2.1.mpr (by decide),
    (RHDF_bit_flag_set {RHDF.SPLITAFTER, RHDF.SOLID} {RHDF.SOLID} RHDF.SOLID
      RHDF.DIRECTORY).2.2.2.1 (by decide)⟩

/-- Claim C5: the nine archive-level flags are nine distinct single-bit masks
occupying exactly the bits 0 to 8, their OR being `0x01FF`; OR-ing the masks of
a set of flags is a bijection between the sets of flags and the words in
`0..0x1FF`, and the test `word & mask` recovers exactly the set. -/
theorem ROADF_bit_flag_set (S : Finset ROADF) (f g : ROADF) (i : Nat) :
    Fintype.card ROADF = 9 ∧
    (f.mask = 2 ^ f.bit ∧ f.bit ≤ 8) ∧
    (f ≠ g → f.mask ≠ g.mask ∧ f.mask &&& g.mask = 0) ∧
    (i ≤ 8 → ∃ x : ROADF, x.mask = 2 ^ i) ∧
    flagsWord ROADF.mask Finset.univ = 0x01FF ∧
    Set.BijOn (flagsWord ROADF.mask) Set.univ {w | w ≤ 0x1FF} ∧
    (flagsWord ROADF.mask S &&& f.mask ≠ 0 ↔ f ∈ S) := by
  have hlt : ∀ U : Finset ROADF, flagsWord ROADF.mask U < 2 ^ 9 :=
    flagsWord_lt _ _ ROADF_mask_eq 9 ROADF_bit_lt
  have hfilter : ∀ w, w < 2 ^ 9 →
      flagsWord ROADF.mask (Finset.univ.filter (fun x => w.testBit x.bit = true)) = w :=
    flagsWord_filter _ _ ROADF_mask_eq 9 ROADF_bit_surjective
  refine ⟨rfl, ⟨ROADF_mask_eq f, by have := ROADF_bit_lt f; omega⟩, ?_, ?_, ?_, ⟨?_, ?_, ?_⟩,
    flagsWord_and_mask _ _ ROADF_mask_eq ROADF_bit_injective S f⟩
  · intro hfg
    cases f <;> cases g <;> first | exact absurd rfl hfg | decide
  · intro hi
    obtain ⟨x, hx⟩ := ROADF_bit_surjective i (by omega)
    exact ⟨x, hx ▸ ROADF_mask_eq x⟩
  · have hu : Finset.univ.filter (fun x : ROADF => Nat.testBit 0x01FF x.bit = true) =
        Finset.univ :=
      Finset.filter_true_of_mem (fun x _ => by cases x <;> decide)
    have h := hfilter 0x01FF (by decide)
    rw [hu] at h
    exact h
  · intro U _
    have := hlt U
    show flagsWord ROADF.mask U ≤ 0x1FF
    omega
  · intro U _ V _ hUV
    exact flagsWord_injective _ _ ROADF_mask_eq ROADF_bit_injective hUV
  · intro w hw
    have hw2 : w ≤ 0x1FF := hw
    exact ⟨_, Set.mem_univ _, hfilter w (by omega)⟩

/-- Witness of claim C5 at the set `{VOLUME, FIRSTVOLUME}`, the flags
`FIRSTVOLUME` and `SOLID` and the bit 8. -/
theorem ROADF_bit_flag_set_witness :
    (ROADF.FIRSTVOLUME ≠ ROADF.SOLID ∧ 8 ≤ 8) ∧
    (ROADF.FIRSTVOLUME.mask ≠ ROADF.SOLID.mask ∧
      ROADF.FIRSTVOLUME.mask &&& ROADF.SOLID.mask = 0) ∧
    (∃ x : ROADF, x.mask = 2 ^ 8) ∧
    flagsWord ROADF.mask {ROADF.VOLUME, ROADF.FIRSTVOLUME} &&& ROADF.FIRSTVOLUME.mask ≠ 0 :=
  ⟨⟨by decide, by decide⟩,
    (ROADF_bit_flag_set {ROADF.VOLUME, ROADF.FIRSTVOLUME} ROADF.FIRSTVOLUME ROADF.SOLID
      8).2.2.1 (by decide),
    (ROADF_bit_flag_set {ROADF.VOLUME, ROADF.FIRSTVOLUME} ROADF.FIRSTVOLUME ROADF.SOLID
      8).2.2.2.1 (by decide),
    (ROADF_bit_flag_set {ROADF.VOLUME, ROADF.FIRSTVOLUME} ROADF.FIRSTVOLUME ROADF.SOLID
      8).2.2.2.2.2.2.mpr (by decide)⟩

/-! ## Facts on the archive session -/

theorem sampleEntry_wf (flags pack unp crc attr : Nat) (hf : flags < 2 ^ 32)
    (hp : pack < 2 ^ 32) (hu : unp < 2 ^ 32) (hcrc : crc < 2 ^ 32) (hattr : attr < 2 ^ 32) :
    ({ sampleHeader with Flags := flags, PackSize := pack, UnpSize := unp, FileCRC := crc,
                         Method := 0x30, FileAttr := attr } : RARHeaderDataEx).WF := by
  simp only [RARHeaderDataEx.WF, sampleHeader, List.length_replicate, List.mem_replicate]
  refine ⟨trivial, trivial, trivial, trivial, trivial, trivial, ?_, hf, hp, by decide, hu,
    by decide, by decide, hcrc, by decide, by decide, by decide, hattr, ?_⟩
  · rintro x ⟨-, rfl⟩
    decide
  · decide

theorem fileEntry_valid (key : List Nat) : fileEntry.Valid storeEngine key :=
  ⟨sampleEntry_wf 0 3 3 219 0x20 (by decide) (by decide) (by decide) (by decide) (by decide),
    by decide, by decide, by decide, by decide, by decide, fun _ => ⟨rfl, rfl⟩⟩

theorem dirEntry_valid (key : List Nat) : dirEntry.Valid storeEngine key :=
  ⟨sampleEntry_wf RHDF_DIRECTORY 0 0 0 0x10 (by decide) (by decide) (by decide) (by decide)
      (by decide),
    by decide, by decide, fun _ => rfl, by decide, by decide,
    fun h => absurd h (by decide)⟩

theorem plainArchive_valid : plainArchive.Valid storeEngine := by
  refine ⟨by decide, ?_⟩
  intro e he
  simp only [plainArchive, List.mem_cons, List.mem_singleton, List.not_mem_nil, or_false] at he
  rcases he with rfl | rfl
  · exact dirEntry_valid _
  · exact fileEntry_valid _

theorem enumerate_broken :
    enumerate storeEngine (fun _ => OperationMode.skip) 3 (openArchive brokenArchive none none) =
      some ([(0, { fileEntry.header with PackSize := 2 })], ERAR_BAD_DATA) := by
  rfl

end Unrar
